import Mathlib

/-!
Verification development for the PerfectPay PIX QR-code generator
(`src/generate/qrcode_pix.py`, entry point `src/app.py`).

The script drives a Selenium-controlled browser through a checkout page.
We embed it shallowly: the uncontrolled browser/page is an `Env` record
giving the outcome of each interaction point the code performs (element
lookups yield `Option` element handles, where `none` means the lookup or
wait raised; clicks and scripts may raise, recorded as `Bool` flags; the
image library `PIL` is out of scope per the design and is an abstract
`Env` function).  Each Python method becomes a Lean function returning an
`Except`/value result together with a trace of observable events
(navigations, script executions, clicks, screenshots, saved files, the
printed byte count).  `try/except` blocks become explicit wrapper
functions around a `...Body` function that can return `Except.error`.
-/

namespace PerfectPayPix

/-- Tags for `driver.execute_script` call sites in the source. -/
inductive ScriptTag where
  /-- The navigator-webdriver removal patch run in `_remove_automation_properties`
      (qrcode_pix.py line 138). -/
  | webdriverPatch
  /-- The `scrollIntoView` script used before clicks (lines 215 and 257). -/
  | scrollIntoView
  deriving DecidableEq

/-- Observable events of one run, in program order. -/
inductive Event where
  /-- Call `driver.get url` (lines 195, 362). -/
  | navigate (url : String)
  /-- Call of `driver.execute_script` other than element clicks. -/
  | script (tag : ScriptTag)
  /-- A native Selenium `element.click()` attempt (line 219). -/
  | nativeClick (elem : Nat)
  /-- A scripted JavaScript click `execute_script(click, element)` (lines 221, 230, 259). -/
  | jsClick (elem : Nat)
  /-- A direct `driver.find_element` lookup (lines 229, 250). -/
  | findElement (selector : String)
  /-- Call `element.send_keys` (line 204). -/
  | sendKeys (text : String)
  /-- A log record (tags abbreviate the Portuguese messages of the source). -/
  | logMsg (msg : String)
  /-- A diagnostic screenshot saved by `_take_screenshot`, by tag (line 354). -/
  | screenshot (tag : String)
  /-- The QR image file written by `image.save(filename)` (line 327). -/
  | savedImage (path : String) (content : List Nat)
  /-- The byte count printed at line 333: `len(image_bytes)`. -/
  | reportedSize (n : Nat)
  deriving DecidableEq

/-- The uncontrolled browser/page: one field per interaction point of the
source, in the order the code reaches them.  `Option Nat` fields are element
lookups/waits: `some e` is the found element handle, `none` means the lookup
raised (timeout, no-such-element, or invalid selector).  `Bool` fields are
`true` when the corresponding call raises. -/
structure Env where
  /-- Whether `driver.get` in `_navigate_to_checkout` raises (line 195). -/
  navigateRaises : Bool
  /-- Wait for presence of `identification-number` (line 201). -/
  cpfField : Option Nat
  /-- Whether `cpf_field.send_keys(cpf)` raises (line 204). -/
  sendKeysRaises : Bool
  /-- Wait for `finish-buy-btn` to be clickable (line 210). -/
  finishBtn : Option Nat
  /-- Whether `scrollIntoView` on the finish button raises (line 215). -/
  scrollRaises : Bool
  /-- Native `finish_btn.click()` raises (line 219). -/
  nativeClickRaises : Bool
  /-- The inner scripted-click fallback raises (line 221). -/
  jsFallbackRaises : Bool
  /-- Direct `find_element` of `finish-buy-btn` in the outer handler (line 229). -/
  finishBtnDirect : Option Nat
  /-- The scripted click in the outer handler raises (line 230). -/
  jsDirectRaises : Bool
  /-- First existing-PIX probe: primary-styled anchor with Abrir text (line 242). -/
  pixSel1 : Option Nat
  /-- Second existing-PIX probe: anchor with href payments/thanks (line 243). -/
  pixSel2 : Option Nat
  /-- Third existing-PIX probe (line 244; the XPath literal in the source is
      missing its closing bracket, so with a real driver this lookup always
      raises `InvalidSelectorException`; the model keeps it general, since
      either way the raise is caught by the bare `except: continue`). -/
  pixSel3 : Option Nat
  /-- Whether `scrollIntoView` on the found existing-PIX button raises (line 257). -/
  pixScrollRaises : Bool
  /-- Scripted click on the existing-PIX button raises (line 259). -/
  pixClickRaises : Bool
  /-- Value of `driver.current_url` at line 272. -/
  url1 : String
  /-- Value of `driver.current_url` re-read after the extra 5s sleep (line 276). -/
  url2 : String
  /-- Wait for presence of the `qrCode` element (line 281). -/
  qrElem : Option Nat
  /-- Result of `qr_element.get_attribute("value")` (line 284); Selenium returns
      `None` when the attribute/property is absent. -/
  qrValue : Option String
  /-- Wait for the inline image element `img[src*=data:image]` (line 304). -/
  imgElem : Option Nat
  /-- Result of `qr_image.get_attribute("src")` (line 309); may be `None`. -/
  imgSrc : Option String
  /-- The image library (external collaborator, out of scope per the design,
      section 1): `Image.open` on the decoded bytes either raises (`none`) or
      yields width, height, and the bytes `image.save` will write. -/
  pilOpen : List Nat → Option (Nat × Nat × List Nat)
  /-- Whether `image.save(filename)` raises (line 327). -/
  imgSaveRaises : Bool
  /-- Whether `driver.save_screenshot` raises for a given tag (line 354). -/
  screenshotRaises : String → Bool
  /-- The `time.strftime` timestamp used in file names (lines 325, 346). -/
  timestamp : String

/-! ### String helpers (structural stand-ins for the Python `str` operations) -/

/-- Test `listPrefixOf p l`: it is `true` when `p` is a prefix of `l`. -/
def listPrefixOf : List Char → List Char → Bool
  | [], _ => true
  | _ :: _, [] => false
  | a :: as, b :: bs => a == b && listPrefixOf as bs

/-- Python `s.startswith(pre)`. -/
def strStartsWith (s pre : String) : Bool :=
  listPrefixOf pre.data s.data

/-- Test `containsSub pat l`: it is `true` when `pat` occurs inside `l`. -/
def containsSub (pat : List Char) : List Char → Bool
  | [] => pat.isEmpty
  | c :: rest => listPrefixOf pat (c :: rest) || containsSub pat rest

/-- Python `pat in s` substring test. -/
def strContains (s pat : String) : Bool :=
  containsSub pat.data s.data

/-- Python `s.split(",")`: split on every comma, keeping empty pieces. -/
def splitCommaAux (cur : List Char) : List Char → List (List Char)
  | [] => [cur.reverse]
  | c :: rest =>
      if c == ',' then cur.reverse :: splitCommaAux [] rest
      else splitCommaAux (c :: cur) rest

/-- Python `s.split(",")` on strings. -/
def splitComma (s : String) : List String :=
  (splitCommaAux [] s.data).map String.mk

/-! ### Base64 decoding (`base64.b64decode`, line 319)

Standard-alphabet decode: characters outside the alphabet are discarded
(Python's default `validate=False`), `=` terminates the data, and incorrect
padding is an error (`none`). -/

/-- Value of one standard base64 alphabet character. -/
def b64Val (c : Char) : Option Nat :=
  if 'A' ≤ c ∧ c ≤ 'Z' then some (c.toNat - 65)
  else if 'a' ≤ c ∧ c ≤ 'z' then some (c.toNat - 71)
  else if '0' ≤ c ∧ c ≤ '9' then some (c.toNat + 4)
  else if c = '+' then some 62
  else if c = '/' then some 63
  else none

/-- Decode one group of two to four 6-bit values into bytes. -/
def decodeChunk : List Nat → List Nat
  | [a, b] => [a * 4 + b / 16]
  | [a, b, c] => [a * 4 + b / 16, (b % 16) * 16 + c / 4]
  | [a, b, c, d] => [a * 4 + b / 16, (b % 16) * 16 + c / 4, (c % 4) * 64 + d]
  | _ => []

/-- Decode a sequence of 6-bit values, four at a time. -/
def decodeVals : List Nat → List Nat
  | a :: b :: c :: d :: rest => decodeChunk [a, b, c, d] ++ decodeVals rest
  | rest => decodeChunk rest

/-- Python `base64.b64decode`; `none` models `binascii.Error` (incorrect padding). -/
def b64decode (s : String) : Option (List Nat) :=
  let cs := s.data.filter (fun c => (b64Val c).isSome || c == '=')
  let data := cs.takeWhile (fun c => c != '=')
  if cs.length % 4 != 0 then none
  else if data.length % 4 == 1 then none
  else some (decodeVals (data.filterMap b64Val))

/-! ### The automation steps (`PerfectPayPixGenerator`) -/

/-- Selector / locator names, abbreviating the locator literals of the source. -/
def selCpf : String := "identification-number"

/-- Locator `finish-buy-btn` (lines 211, 229). -/
def selFinish : String := "finish-buy-btn"

/-- First existing-PIX XPath (line 242). -/
def pixSelA : String := "xpath_btn_primary_abrir"

/-- Second existing-PIX XPath (line 243). -/
def pixSelB : String := "xpath_href_payments_thanks"

/-- Third existing-PIX XPath (line 244; unclosed bracket in the source). -/
def pixSelC : String := "xpath_abrir_pix_ja_gerado_unclosed"

/-- Source `_remove_automation_properties` (lines 136-139), run once by
`_setup_driver` during `__init__`. -/
def removeAutomationProperties : List Event :=
  [Event.script ScriptTag.webdriverPatch]

/-- Source `_take_screenshot` (lines 343-358): best-effort, swallows its own
failures.  Yields the events it produces. -/
def takeScreenshot (env : Env) (tag : String) : List Event :=
  if env.screenshotRaises tag then
    [Event.logMsg ("Erro ao salvar screenshot: " ++ tag)]
  else
    [Event.screenshot tag,
     Event.logMsg ("Screenshot salvo: images/prints/" ++ tag ++ "_" ++ env.timestamp ++ ".png")]

/-- The URL built at line 194: plain f-string concatenation, no URL-encoding. -/
def checkoutUrl (base email name phone : String) : String :=
  base ++ "?email=" ++ email ++ "&name=" ++ name ++ "&phone=" ++ phone

/-- Source `_navigate_to_checkout` (lines 192-197). -/
def navigateToCheckout (env : Env) (base email name phone : String) :
    Except String Unit × List Event :=
  let url := checkoutUrl base email name phone
  if env.navigateRaises then
    (Except.error "navigation error", [Event.navigate url])
  else
    (Except.ok (), [Event.navigate url, Event.logMsg ("Navegando para checkout: " ++ url)])

/-- Source `_fill_cpf_field` (lines 199-205): wait for presence, then `send_keys`. -/
def fillCpfField (env : Env) (cpf : String) : Except String Unit × List Event :=
  match env.cpfField with
  | none => (Except.error "cpf field timeout", [])
  | some _ =>
      if env.sendKeysRaises then
        (Except.error "send keys error", [Event.sendKeys cpf])
      else
        (Except.ok (), [Event.sendKeys cpf, Event.logMsg "Campo CPF preenchido"])

/-- Message of the exception raised at line 233. -/
def finishFailMsg : String := "Nao foi possivel clicar no botao de finalizar compra"

/-- Log message of line 226. -/
def finishErrLog : String := "Erro ao clicar no botao de finalizar"

/-- The outer `except` handler of `_finish_purchase` (lines 228-233): one
direct `find_element` plus a scripted click; on any failure, raise. -/
def finishDirect (env : Env) : Except String Unit × List Event :=
  match env.finishBtnDirect with
  | none => (Except.error finishFailMsg, [Event.findElement selFinish])
  | some btn =>
      if env.jsDirectRaises then
        (Except.error finishFailMsg, [Event.findElement selFinish, Event.jsClick btn])
      else
        (Except.ok (),
         [Event.findElement selFinish, Event.jsClick btn,
          Event.logMsg "Botao clicado com JavaScript"])

/-- Source `_finish_purchase` (lines 207-233): wait for clickability, scroll,
native click with an inner scripted-click fallback; any exception from that
block falls to the outer handler `finishDirect`. -/
def finishPurchase (env : Env) : Except String Unit × List Event :=
  match env.finishBtn with
  | none =>
      let r := finishDirect env
      (r.1, Event.logMsg finishErrLog :: r.2)
  | some btn =>
      if env.scrollRaises then
        let r := finishDirect env
        (r.1, Event.script ScriptTag.scrollIntoView :: Event.logMsg finishErrLog :: r.2)
      else if env.nativeClickRaises then
        if env.jsFallbackRaises then
          let r := finishDirect env
          (r.1, Event.script ScriptTag.scrollIntoView :: Event.nativeClick btn ::
                Event.jsClick btn :: Event.logMsg finishErrLog :: r.2)
        else
          (Except.ok (),
           [Event.script ScriptTag.scrollIntoView, Event.nativeClick btn, Event.jsClick btn,
            Event.logMsg "Botao de finalizar compra clicado"])
      else
        (Except.ok (),
         [Event.script ScriptTag.scrollIntoView, Event.nativeClick btn,
          Event.logMsg "Botao de finalizar compra clicado"])

/-- The probing loop of `_handle_existing_pix` (lines 241-253): try the three
selectors in order, `break` on the first lookup that returns an element,
`continue` past any lookup that raises. -/
def pixProbe (env : Env) : Option Nat × List Event :=
  match env.pixSel1 with
  | some b => (some b, [Event.findElement pixSelA])
  | none =>
      match env.pixSel2 with
      | some b => (some b, [Event.findElement pixSelA, Event.findElement pixSelB])
      | none =>
          match env.pixSel3 with
          | some b =>
              (some b,
               [Event.findElement pixSelA, Event.findElement pixSelB, Event.findElement pixSelC])
          | none =>
              (none,
               [Event.findElement pixSelA, Event.findElement pixSelB, Event.findElement pixSelC])

/-- Log message of line 262. -/
def noPixLog : String := "Nenhum PIX ja gerado encontrado"

/-- The `try` body of `_handle_existing_pix` (lines 239-262): probe, then
scroll and scripted-click the found button, or log that none was found. -/
def handleExistingPixBody (env : Env) : Except String Unit × List Event :=
  let p := pixProbe env
  match p.1 with
  | some btn =>
      if env.pixScrollRaises then
        (Except.error "scroll error",
         p.2 ++ [Event.logMsg "PIX ja gerado detectado", Event.script ScriptTag.scrollIntoView])
      else if env.pixClickRaises then
        (Except.error "click error",
         p.2 ++ [Event.logMsg "PIX ja gerado detectado", Event.script ScriptTag.scrollIntoView,
                 Event.jsClick btn])
      else
        (Except.ok (),
         p.2 ++ [Event.logMsg "PIX ja gerado detectado", Event.script ScriptTag.scrollIntoView,
                 Event.jsClick btn])
  | none => (Except.ok (), p.2 ++ [Event.logMsg noPixLog])

/-- Source `_handle_existing_pix` (lines 235-265): the whole body is wrapped in
`try/except Exception`, whose handler merely logs. -/
def handleExistingPix (env : Env) : Except String Unit × List Event :=
  let r := handleExistingPixBody env
  match r.1 with
  | Except.ok _ => (Except.ok (), r.2)
  | Except.error e =>
      (Except.ok (), r.2 ++ [Event.logMsg ("Erro ao verificar PIX ja gerado: " ++ e)])

/-- Message of the exception raised at line 291. -/
def qrFailMsg : String := "QR Code nao foi encontrado na pagina"

/-- Source `_capture_qr_code` (lines 267-291): if the URL still contains
`/payment/`, sleep once more and re-read it (log only); then wait for the
`qrCode` element and read its `value` attribute; on timeout, screenshot
tagged `qr_code_not_found` and raise. -/
def captureQrCode (env : Env) : Except String (Option String) × List Event :=
  let t0 : List Event :=
    if strContains env.url1 "/payment/" then
      [Event.logMsg "Aguardando redirecionamento...",
       Event.logMsg ("URL apos aguardar: " ++ env.url2)]
    else []
  match env.qrElem with
  | some _ => (Except.ok env.qrValue, t0 ++ [Event.logMsg "QR Code capturado com sucesso"])
  | none =>
      (Except.error qrFailMsg,
       t0 ++ Event.logMsg "QR Code nao encontrado apos 15 segundos" ::
         takeScreenshot env "qr_code_not_found")

/-- Path of the saved QR image file (line 326). -/
def qrImagePath (cpf ts : String) : String :=
  "images/qrcode_pix_" ++ cpf ++ "_" ++ ts ++ ".png"

/-- The `try` body of `capture_and_display_qr_image` (lines 300-337): wait
for the inline image, check the `data:image` prefix (early `return None` on
mismatch), take the part after the first comma (`IndexError` if there is
none), base64-decode it, open it with the image library, save the re-encoded
image, print the decoded byte count, and return the base64 section. -/
def captureQrImageBody (env : Env) (cpf : String) :
    Except String (Option String) × List Event :=
  let t0 : List Event := [Event.logMsg "Capturando imagem do QR Code..."]
  match env.imgElem with
  | none => (Except.error "image element timeout", t0)
  | some _ =>
      match env.imgSrc with
      | none =>
          (Except.ok none,
           t0 ++ [Event.logMsg "Imagem do QR Code nao encontrada ou formato invalido"])
      | some src =>
          if strStartsWith src "data:image" then
            match (splitComma src).get? 1 with
            | none => (Except.error "index error", t0)
            | some b64data =>
                match b64decode b64data with
                | none => (Except.error "binascii error", t0)
                | some bytes =>
                    match env.pilOpen bytes with
                    | none => (Except.error "image open error", t0)
                    | some (_, _, outBytes) =>
                        if env.imgSaveRaises then (Except.error "image save error", t0)
                        else
                          (Except.ok (some b64data),
                           t0 ++ [Event.savedImage (qrImagePath cpf env.timestamp) outBytes,
                                  Event.reportedSize bytes.length,
                                  Event.logMsg ("Imagem do QR Code salva: " ++
                                    qrImagePath cpf env.timestamp)])
          else
            (Except.ok none,
             t0 ++ [Event.logMsg "Imagem do QR Code nao encontrada ou formato invalido"])

/-- Source `capture_and_display_qr_image` (lines 293-341): the whole body is
wrapped in `try/except Exception`, whose handler logs and returns `None`. -/
def captureAndDisplayQrImage (env : Env) (cpf : String) : Option String × List Event :=
  let r := captureQrImageBody env cpf
  match r.1 with
  | Except.ok v => (v, r.2)
  | Except.error e =>
      (none, r.2 ++ [Event.logMsg ("Erro ao capturar e salvar imagem do QR Code: " ++ e)])

/-- The `try` body of `generate_pix` (lines 163-185): the step sequence. -/
def generatePixBody (env : Env) (base email name phone cpf : String) :
    Except String (Option String) × List Event :=
  let t0 : List Event := [Event.logMsg ("Iniciando geracao de PIX para: " ++ email)]
  let r1 := navigateToCheckout env base email name phone
  match r1.1 with
  | Except.error e => (Except.error e, t0 ++ r1.2)
  | Except.ok _ =>
      let r2 := fillCpfField env cpf
      match r2.1 with
      | Except.error e => (Except.error e, t0 ++ r1.2 ++ r2.2)
      | Except.ok _ =>
          let r3 := finishPurchase env
          match r3.1 with
          | Except.error e => (Except.error e, t0 ++ r1.2 ++ r2.2 ++ r3.2)
          | Except.ok _ =>
              let r4 := handleExistingPix env
              match r4.1 with
              | Except.error e => (Except.error e, t0 ++ r1.2 ++ r2.2 ++ r3.2 ++ r4.2)
              | Except.ok _ =>
                  let r5 := captureQrCode env
                  match r5.1 with
                  | Except.error e =>
                      (Except.error e, t0 ++ r1.2 ++ r2.2 ++ r3.2 ++ r4.2 ++ r5.2)
                  | Except.ok tok =>
                      let r6 := captureAndDisplayQrImage env cpf
                      (Except.ok tok,
                       t0 ++ r1.2 ++ r2.2 ++ r3.2 ++ r4.2 ++ r5.2 ++ r6.2 ++
                         [Event.logMsg ("PIX gerado com sucesso para: " ++ email)])

/-- Source `generate_pix` (lines 141-190): the public operation.  Any exception
from the body is caught, logged, answered with an `error_screenshot`
diagnostic, and converted to the empty string.  The returned `Option String`
is the Python value: `some s` a `str`, `none` the Python `None` that flows
out when `get_attribute("value")` yields no value. -/
def generatePix (env : Env) (base email name phone cpf : String) :
    Option String × List Event :=
  let r := generatePixBody env base email name phone cpf
  match r.1 with
  | Except.ok tok => (tok, r.2)
  | Except.error e =>
      (some "",
       r.2 ++ Event.logMsg ("Erro ao gerar PIX: " ++ e) :: takeScreenshot env "error_screenshot")

/-- One full session as `app.py` runs it: `__init__` (which executes the
webdriver patch once, via `_setup_driver`) followed by `generate_pix`. -/
def sessionRun (env : Env) (base email name phone cpf : String) :
    Option String × List Event :=
  let r := generatePix env base email name phone cpf
  (r.1, removeAutomationProperties ++ r.2)

/-! ### Trace observations -/

/-- Tags of the diagnostic screenshots saved during a trace. -/
def screenshotTags (t : List Event) : List String :=
  t.filterMap (fun e => match e with | Event.screenshot tag => some tag | _ => none)

/-- URLs of the navigations issued during a trace. -/
def navUrls (t : List Event) : List String :=
  t.filterMap (fun e => match e with | Event.navigate u => some u | _ => none)

/-- Elements scripted-clicked during a trace, in order. -/
def jsClicks (t : List Event) : List Nat :=
  t.filterMap (fun e => match e with | Event.jsClick b => some b | _ => none)

/-- Number of direct `find_element` lookups in a trace. -/
def lookupCount (t : List Event) : Nat :=
  (t.filterMap (fun e => match e with | Event.findElement s => some s | _ => none)).length

/-- Occurrences of the webdriver-removal patch in a trace. -/
def patchScripts (t : List Event) : List ScriptTag :=
  t.filterMap (fun e =>
    match e with
    | Event.script ScriptTag.webdriverPatch => some ScriptTag.webdriverPatch
    | _ => none)

/-- Byte lengths of the image files written during a trace. -/
def savedImageSizes (t : List Event) : List Nat :=
  t.filterMap (fun e => match e with | Event.savedImage _ c => some c.length | _ => none)

/-- The byte counts the script printed during a trace. -/
def reportedSizes (t : List Event) : List Nat :=
  t.filterMap (fun e => match e with | Event.reportedSize n => some n | _ => none)

/-! ### Concrete environments and inputs used by witnesses and counterexamples -/

/-- Input strings of the test scenario (spec section 8). -/
def base0 : String := "https://checkout.example/pp"

/-- Test email. -/
def email0 : String := "a@b.com"

/-- Test name (contains a space, inserted verbatim into the URL). -/
def name0 : String := "A B"

/-- Test phone. -/
def phone0 : String := "1199999999"

/-- Test CPF / national id. -/
def cpf0 : String := "12345678900"

/-- A page where every interaction succeeds, no existing-PIX button is
present, the token field carries `PIXTOKEN`, and the QR image is the inline
payload `aGVsbG8=` (decoding to 5 bytes); the image library is modelled as
re-encoding to the same bytes. -/
def envAllOk : Env := {
  navigateRaises := false, cpfField := some 1, sendKeysRaises := false,
  finishBtn := some 2, scrollRaises := false, nativeClickRaises := false,
  jsFallbackRaises := false, finishBtnDirect := some 2, jsDirectRaises := false,
  pixSel1 := none, pixSel2 := none, pixSel3 := none,
  pixScrollRaises := false, pixClickRaises := false,
  url1 := "https://checkout.example/pp/start", url2 := "https://checkout.example/done",
  qrElem := some 3, qrValue := some "PIXTOKEN",
  imgElem := some 4, imgSrc := some "data:image/png;base64,aGVsbG8=",
  pilOpen := fun bs => some (21, 21, bs), imgSaveRaises := false,
  screenshotRaises := fun _ => false, timestamp := "20260101_000000" }

/-- Like `envAllOk` but the `qrCode` element has no `value` attribute. -/
def envNoValue : Env := { envAllOk with qrValue := none }

/-- Like `envAllOk`, but the current URL still contains `/payment/` both
before and after the one-shot extra wait. -/
def envStalled : Env :=
  { envAllOk with
      url1 := "https://checkout.example/payment/confirm",
      url2 := "https://checkout.example/payment/confirm" }

/-- Like `envStalled`, and the token field also never appears. -/
def envStalledNoQr : Env := { envStalled with qrElem := none }

/-- Like `envAllOk`, but the inline QR image element never appears. -/
def envNoImage : Env := { envAllOk with imgElem := none }

/-- Like `envAllOk`, but the first existing-PIX locator matches element 7. -/
def envPixFirst : Env := { envAllOk with pixSel1 := some 7 }

/-- Like `envAllOk`, but both the native click and the first scripted click
raise (the direct lookup and its click then succeed). -/
def envDoubleClickFail : Env :=
  { envAllOk with nativeClickRaises := true, jsFallbackRaises := true }

/-- Like `envAllOk`, but only the native click raises. -/
def envNativeFail : Env := { envAllOk with nativeClickRaises := true }

/-- Like `envAllOk`, but the wait-based lookup of the finalize control
fails. -/
def envWaitFail : Env := { envAllOk with finishBtn := none }

/-- Like `envAllOk`, but the identification (CPF) field never appears, so
the run fails at the form-fill step. -/
def envNoCpfField : Env := { envAllOk with cpfField := none }

/-- Like `envAllOk`, but the finalize control is found by neither the
wait-based nor the direct lookup, so the run fails at the finalize step. -/
def envNoFinishBtn : Env :=
  { envAllOk with finishBtn := none, finishBtnDirect := none }

/-- Like `envAllOk`, but the token field never appears. -/
def envNoQr : Env := { envAllOk with qrElem := none }

/-- Like `envAllOk`, but the image library re-encodes every image to a
3-byte file (the code never constrains the re-encoded size). -/
def envReencode : Env :=
  { envAllOk with pilOpen := fun _ => some (1, 1, [0, 0, 0]) }

/-! ### Helper lemmas: what each step can and cannot put in its trace -/


theorem patchScripts_append (a b : List Event) :
    patchScripts (a ++ b) = patchScripts a ++ patchScripts b := by
  simp [patchScripts]

theorem navUrls_append (a b : List Event) :
    navUrls (a ++ b) = navUrls a ++ navUrls b := by
  simp [navUrls]

theorem screenshotTags_append (a b : List Event) :
    screenshotTags (a ++ b) = screenshotTags a ++ screenshotTags b := by
  simp [screenshotTags]

theorem patchScripts_nav (env : Env) (b e n p : String) :
    patchScripts (navigateToCheckout env b e n p).2 = [] := by
  cases h : env.navigateRaises <;> simp [navigateToCheckout, h, patchScripts]

theorem navUrls_nav (env : Env) (b e n p : String) :
    navUrls (navigateToCheckout env b e n p).2 = [checkoutUrl b e n p] := by
  cases h : env.navigateRaises <;> simp [navigateToCheckout, h, navUrls]

theorem screenshotTags_nav (env : Env) (b e n p : String) :
    screenshotTags (navigateToCheckout env b e n p).2 = [] := by
  cases h : env.navigateRaises <;> simp [navigateToCheckout, h, screenshotTags]

theorem patchScripts_fill (env : Env) (c : String) :
    patchScripts (fillCpfField env c).2 = [] := by
  cases h1 : env.cpfField <;> cases h2 : env.sendKeysRaises <;>
    simp [fillCpfField, h1, h2, patchScripts]

theorem navUrls_fill (env : Env) (c : String) :
    navUrls (fillCpfField env c).2 = [] := by
  cases h1 : env.cpfField <;> cases h2 : env.sendKeysRaises <;>
    simp [fillCpfField, h1, h2, navUrls]

theorem screenshotTags_fill (env : Env) (c : String) :
    screenshotTags (fillCpfField env c).2 = [] := by
  cases h1 : env.cpfField <;> cases h2 : env.sendKeysRaises <;>
    simp [fillCpfField, h1, h2, screenshotTags]

theorem patchScripts_finish (env : Env) :
    patchScripts (finishPurchase env).2 = [] := by
  cases h1 : env.finishBtn <;> cases h2 : env.finishBtnDirect <;>
  cases h3 : env.scrollRaises <;> cases h4 : env.nativeClickRaises <;>
  cases h5 : env.jsFallbackRaises <;> cases h6 : env.jsDirectRaises <;>
    simp [finishPurchase, finishDirect, h1, h2, h3, h4, h5, h6, patchScripts]

theorem navUrls_finish (env : Env) :
    navUrls (finishPurchase env).2 = [] := by
  cases h1 : env.finishBtn <;> cases h2 : env.finishBtnDirect <;>
  cases h3 : env.scrollRaises <;> cases h4 : env.nativeClickRaises <;>
  cases h5 : env.jsFallbackRaises <;> cases h6 : env.jsDirectRaises <;>
    simp [finishPurchase, finishDirect, h1, h2, h3, h4, h5, h6, navUrls]

theorem screenshotTags_finish (env : Env) :
    screenshotTags (finishPurchase env).2 = [] := by
  cases h1 : env.finishBtn <;> cases h2 : env.finishBtnDirect <;>
  cases h3 : env.scrollRaises <;> cases h4 : env.nativeClickRaises <;>
  cases h5 : env.jsFallbackRaises <;> cases h6 : env.jsDirectRaises <;>
    simp [finishPurchase, finishDirect, h1, h2, h3, h4, h5, h6, screenshotTags]

theorem patchScripts_pix (env : Env) :
    patchScripts (handleExistingPix env).2 = [] := by
  cases h1 : env.pixSel1 <;> cases h2 : env.pixSel2 <;> cases h3 : env.pixSel3 <;>
  cases h4 : env.pixScrollRaises <;> cases h5 : env.pixClickRaises <;>
    simp [handleExistingPix, handleExistingPixBody, pixProbe, h1, h2, h3, h4, h5, patchScripts]

theorem navUrls_pix (env : Env) :
    navUrls (handleExistingPix env).2 = [] := by
  cases h1 : env.pixSel1 <;> cases h2 : env.pixSel2 <;> cases h3 : env.pixSel3 <;>
  cases h4 : env.pixScrollRaises <;> cases h5 : env.pixClickRaises <;>
    simp [handleExistingPix, handleExistingPixBody, pixProbe, h1, h2, h3, h4, h5, navUrls]

theorem screenshotTags_pix (env : Env) :
    screenshotTags (handleExistingPix env).2 = [] := by
  cases h1 : env.pixSel1 <;> cases h2 : env.pixSel2 <;> cases h3 : env.pixSel3 <;>
  cases h4 : env.pixScrollRaises <;> cases h5 : env.pixClickRaises <;>
    simp [handleExistingPix, handleExistingPixBody, pixProbe, h1, h2, h3, h4, h5, screenshotTags]

theorem handleExistingPix_fst (env : Env) :
    (handleExistingPix env).1 = Except.ok () := by
  cases h : (handleExistingPixBody env).1 <;> simp [handleExistingPix, h]

theorem captureQrCode_fst (env : Env) :
    (captureQrCode env).1 =
      (match env.qrElem with
       | some _ => Except.ok env.qrValue
       | none => Except.error qrFailMsg) := by
  cases h : env.qrElem <;> simp [captureQrCode, h]


theorem patchScripts_imgBody (env : Env) (c : String) :
    patchScripts (captureQrImageBody env c).2 = [] := by
  simp only [captureQrImageBody]
  repeat' split
  all_goals simp [patchScripts]

theorem navUrls_imgBody (env : Env) (c : String) :
    navUrls (captureQrImageBody env c).2 = [] := by
  simp only [captureQrImageBody]
  repeat' split
  all_goals simp [navUrls]

theorem screenshotTags_imgBody (env : Env) (c : String) :
    screenshotTags (captureQrImageBody env c).2 = [] := by
  simp only [captureQrImageBody]
  repeat' split
  all_goals simp [screenshotTags]

theorem patchScripts_img (env : Env) (c : String) :
    patchScripts (captureAndDisplayQrImage env c).2 = [] := by
  cases h : (captureQrImageBody env c).1 <;>
    simp only [captureAndDisplayQrImage, h, patchScripts_append, patchScripts_imgBody] <;>
    simp [patchScripts]

theorem navUrls_img (env : Env) (c : String) :
    navUrls (captureAndDisplayQrImage env c).2 = [] := by
  cases h : (captureQrImageBody env c).1 <;>
    simp only [captureAndDisplayQrImage, h, navUrls_append, navUrls_imgBody] <;>
    simp [navUrls]

theorem screenshotTags_img (env : Env) (c : String) :
    screenshotTags (captureAndDisplayQrImage env c).2 = [] := by
  cases h : (captureQrImageBody env c).1 <;>
    simp only [captureAndDisplayQrImage, h, screenshotTags_append, screenshotTags_imgBody] <;>
    simp [screenshotTags]

theorem patchScripts_qr (env : Env) :
    patchScripts (captureQrCode env).2 = [] := by
  cases h1 : strContains env.url1 "/payment/" <;> cases h2 : env.qrElem <;>
  cases h3 : env.screenshotRaises "qr_code_not_found" <;>
    simp [captureQrCode, takeScreenshot, h1, h2, h3, patchScripts]

theorem navUrls_qr (env : Env) :
    navUrls (captureQrCode env).2 = [] := by
  cases h1 : strContains env.url1 "/payment/" <;> cases h2 : env.qrElem <;>
  cases h3 : env.screenshotRaises "qr_code_not_found" <;>
    simp [captureQrCode, takeScreenshot, h1, h2, h3, navUrls]

theorem screenshotTags_qr (env : Env) :
    screenshotTags (captureQrCode env).2 =
      (match env.qrElem with
       | some _ => []
       | none =>
           if env.screenshotRaises "qr_code_not_found" then [] else ["qr_code_not_found"]) := by
  cases h1 : strContains env.url1 "/payment/" <;> cases h2 : env.qrElem <;>
  cases h3 : env.screenshotRaises "qr_code_not_found" <;>
    simp [captureQrCode, takeScreenshot, h1, h2, h3, screenshotTags]

theorem patchScripts_body (env : Env) (b e n p c : String) :
    patchScripts (generatePixBody env b e n p c).2 = [] := by
  simp only [generatePixBody]
  cases h1 : (navigateToCheckout env b e n p).1 <;>
  cases h2 : (fillCpfField env c).1 <;>
  cases h3 : (finishPurchase env).1 <;>
  cases h4 : (handleExistingPix env).1 <;>
  cases h5 : (captureQrCode env).1 <;>
    simp only [h1, h2, h3, h4, h5, patchScripts_append, patchScripts_nav, patchScripts_fill,
               patchScripts_finish, patchScripts_pix, patchScripts_qr, patchScripts_img,
               List.append_nil, List.nil_append] <;>
    simp [patchScripts]

theorem navUrls_body (env : Env) (b e n p c : String) :
    navUrls (generatePixBody env b e n p c).2 = [checkoutUrl b e n p] := by
  simp only [generatePixBody]
  cases h1 : (navigateToCheckout env b e n p).1 <;>
  cases h2 : (fillCpfField env c).1 <;>
  cases h3 : (finishPurchase env).1 <;>
  cases h4 : (handleExistingPix env).1 <;>
  cases h5 : (captureQrCode env).1 <;>
    simp only [h1, h2, h3, h4, h5, navUrls_append, navUrls_nav, navUrls_fill,
               navUrls_finish, navUrls_pix, navUrls_qr, navUrls_img,
               List.append_nil, List.nil_append] <;>
    simp [navUrls]

theorem patchScripts_generatePix (env : Env) (b e n p c : String) :
    patchScripts (generatePix env b e n p c).2 = [] := by
  cases h : (generatePixBody env b e n p c).1 <;>
  cases hs : env.screenshotRaises "error_screenshot" <;>
    simp only [generatePix, h, hs, takeScreenshot, patchScripts_append, patchScripts_body,
               List.append_nil, List.nil_append] <;>
    simp [patchScripts]

theorem navUrls_generatePix (env : Env) (b e n p c : String) :
    navUrls (generatePix env b e n p c).2 = [checkoutUrl b e n p] := by
  cases h : (generatePixBody env b e n p c).1 <;>
  cases hs : env.screenshotRaises "error_screenshot" <;>
    simp only [generatePix, h, hs, takeScreenshot, navUrls_append, navUrls_body,
               List.append_nil, List.nil_append] <;>
    simp [navUrls]

/-! ### The claims -/

/-! ### Concrete environments and inputs for witnesses and counterexamples -/

/-! ### C10 -/

/-- C10: the existing-payment handling step never raises for any page state:
every exception from probing its candidate locators or from
scrolling/clicking the found control is caught and only logged, so this step
alone can never route the run to the failure result. -/
theorem handleExistingPix_never_raises (env : Env) :
    (handleExistingPix env).1 = Except.ok () :=
  handleExistingPix_fst env

/-! ### C7 -/

/-- C7 counterexample: with the URL still on an intermediate
`/payment/` page after the extra wait, `_capture_qr_code` does not fail at
all when the token field is present (it succeeds with the token), and when
the token field is absent it fails with the generic token-not-found error —
the code has no `NavigationStall` failure. -/
theorem captureQrCode_no_navigation_stall_cex :
    strContains envStalled.url2 "/payment/" = true ∧
    (captureQrCode envStalled).1 = Except.ok (some "PIXTOKEN") ∧
    (captureQrCode envStalledNoQr).1 = Except.error qrFailMsg :=
  ⟨rfl, rfl, rfl⟩

/-- C7 (amended): after the one-shot extra wait the step proceeds to wait
for the token field regardless of the URL; its outcome depends only on
whether the token field appears (token-not-found error), never on the URL —
there is no navigation-stall failure. -/
theorem captureQrCode_result_ignores_url (env : Env) :
    (captureQrCode env).1 =
      (match env.qrElem with
       | some _ => Except.ok env.qrValue
       | none => Except.error qrFailMsg) :=
  captureQrCode_fst env

/-! ### C9 -/

/-- C9: the checkout navigation URL is exactly the concatenation
`{baseUrl}?email={email}&name={name}&phone={phone}` with the profile fields
inserted verbatim (no URL-encoding applied by the program), and it is the
only navigation the run issues. -/
theorem checkout_url_verbatim (env : Env) (base email name phone cpf : String) :
    navUrls (generatePix env base email name phone cpf).2 =
      [base ++ "?email=" ++ email ++ "&name=" ++ name ++ "&phone=" ++ phone] :=
  navUrls_generatePix env base email name phone cpf

/-! ### C1 -/

/-- Either the body fails, or its value is the token attribute read from
the page. -/
theorem generatePixBody_fst (env : Env) (b e n p c : String) :
    (∃ msg, (generatePixBody env b e n p c).1 = Except.error msg) ∨
    (generatePixBody env b e n p c).1 = Except.ok env.qrValue := by
  simp only [generatePixBody, captureQrCode_fst]
  cases h1 : (navigateToCheckout env b e n p).1 <;>
  cases h2 : (fillCpfField env c).1 <;>
  cases h3 : (finishPurchase env).1 <;>
  cases h4 : (handleExistingPix env).1 <;>
  cases hz : env.qrElem <;>
    simp only [h1, h2, h3, h4, hz] <;>
    first
      | exact Or.inl ⟨_, rfl⟩
      | exact Or.inr rfl
      | exact Or.inr trivial

/-- C1 counterexample: when the `qrCode` element is present but carries no
`value` attribute, `generate_pix` returns Python `None` — neither a
non-empty token string nor the empty string. -/
theorem generatePix_returns_none_cex :
    (generatePix envNoValue base0 email0 name0 phone0 cpf0).1 = none ∧
    (generatePix envNoValue base0 email0 name0 phone0 cpf0).1 ≠ some "" := by
  refine ⟨rfl, fun h => ?_⟩
  have h2 : (none : Option String) = some "" := h
  exact Option.noConfusion h2

/-- C1 (amended): `generate_pix` never propagates an exception (every body
failure is converted to the empty string), and its result is either the
empty string or exactly the token attribute value read from the page —
which may be a non-empty string, the empty string, or Python `None` when
the attribute is absent. -/
theorem generatePix_total_result_shape (env : Env) (b e n p c : String) :
    (generatePix env b e n p c).1 = some "" ∨
    (generatePix env b e n p c).1 = env.qrValue := by
  cases generatePixBody_fst env b e n p c with
  | inl h => obtain ⟨msg, hm⟩ := h; left; simp [generatePix, hm]
  | inr h => right; simp [generatePix, h]

/-! ### C2 -/

/-- C2: in any run where token extraction succeeds, failure of QR-image
capture never aborts the operation: `generate_pix` still returns the
extracted token (the statement puts no constraint at all on the image-side
environment fields), and the image part degrades to `None` when the image
element never appears. -/
theorem token_kept_when_image_capture_fails (env : Env) (b e n p c : String)
    (tok : Option String)
    (hnav : env.navigateRaises = false)
    (hcpf : env.cpfField.isSome = true)
    (hkeys : env.sendKeysRaises = false)
    (hfin : (finishPurchase env).1 = Except.ok ())
    (hqr : (captureQrCode env).1 = Except.ok tok) :
    (generatePix env b e n p c).1 = tok ∧
    (env.imgElem = none → (captureAndDisplayQrImage env c).1 = none) := by
  obtain ⟨x, hx⟩ := Option.isSome_iff_exists.mp hcpf
  constructor
  · simp [generatePix, generatePixBody, navigateToCheckout, fillCpfField, hnav, hx, hkeys,
          hfin, handleExistingPix_fst, hqr]
  · intro himg
    simp [captureAndDisplayQrImage, captureQrImageBody, himg]

/-- C2 witness: a concrete run where every step up to token extraction
succeeds and image capture fails; the token is still returned. -/
theorem token_kept_witness :
    (generatePix envNoImage base0 email0 name0 phone0 cpf0).1 = some "PIXTOKEN" ∧
    (captureAndDisplayQrImage envNoImage cpf0).1 = none := by
  have h := token_kept_when_image_capture_fails envNoImage base0 email0 name0 phone0 cpf0
      (some "PIXTOKEN") rfl rfl rfl rfl rfl
  exact ⟨h.1, h.2 rfl⟩

/-! ### C5 -/

/-- C5: the existing-payment resolver probes its three candidate locators
in priority order and activates (scripted-clicks) the first one that
matches; when none match, it logs that no existing payment was detected,
the step succeeds, and the run proceeds to token extraction rather than
failing. -/
theorem existing_payment_priority_and_absence (env : Env) (b e n p c : String) :
    (∀ x, env.pixSel1 = some x → pixProbe env = (some x, [Event.findElement pixSelA])) ∧
    (env.pixSel1 = none → ∀ x, env.pixSel2 = some x →
      pixProbe env = (some x, [Event.findElement pixSelA, Event.findElement pixSelB])) ∧
    (env.pixSel1 = none → env.pixSel2 = none → ∀ x, env.pixSel3 = some x →
      pixProbe env =
        (some x,
         [Event.findElement pixSelA, Event.findElement pixSelB, Event.findElement pixSelC])) ∧
    (∀ x, (pixProbe env).1 = some x → env.pixScrollRaises = false →
      env.pixClickRaises = false → Event.jsClick x ∈ (handleExistingPix env).2) ∧
    (env.pixSel1 = none → env.pixSel2 = none → env.pixSel3 = none →
      (handleExistingPix env).1 = Except.ok () ∧
      Event.logMsg noPixLog ∈ (handleExistingPix env).2 ∧
      (env.navigateRaises = false → env.cpfField.isSome = true →
       env.sendKeysRaises = false → (finishPurchase env).1 = Except.ok () →
       ∀ q, env.qrElem = some q →
       (generatePix env b e n p c).1 = env.qrValue)) := by
  refine ⟨?_, ?_, ?_, ?_, ?_⟩
  · intro x hx; simp [pixProbe, hx]
  · intro h1 x hx; simp [pixProbe, h1, hx]
  · intro h1 h2 x hx; simp [pixProbe, h1, h2, hx]
  · intro x hx hs hc
    simp [handleExistingPix, handleExistingPixBody, hx, hs, hc]
  · intro h1 h2 h3
    refine ⟨handleExistingPix_fst env, ?_, ?_⟩
    · simp [handleExistingPix, handleExistingPixBody, pixProbe, h1, h2, h3]
    · intro hnav hcpf hkeys hfin q hq
      obtain ⟨x, hx⟩ := Option.isSome_iff_exists.mp hcpf
      have hqr : (captureQrCode env).1 = Except.ok env.qrValue := by
        rw [captureQrCode_fst, hq]
      simp [generatePix, generatePixBody, navigateToCheckout, fillCpfField, hnav, hx, hkeys,
            hfin, handleExistingPix_fst, hqr]

/-- C5 witness: with the first locator matching, the probe returns it after
one lookup and the step clicks it; with none matching, the no-detection log
appears and the concrete run still extracts the token. -/
theorem existing_payment_witness :
    pixProbe envPixFirst = (some 7, [Event.findElement pixSelA]) ∧
    Event.jsClick 7 ∈ (handleExistingPix envPixFirst).2 ∧
    Event.logMsg noPixLog ∈ (handleExistingPix envAllOk).2 ∧
    (generatePix envAllOk base0 email0 name0 phone0 cpf0).1 = some "PIXTOKEN" := by
  have hfirst :=
    (existing_payment_priority_and_absence envPixFirst base0 email0 name0 phone0 cpf0).1 7 rfl
  have hclick :=
    (existing_payment_priority_and_absence envPixFirst base0 email0 name0 phone0 cpf0).2.2.2.1
      7 rfl rfl rfl
  have habsent :=
    (existing_payment_priority_and_absence envAllOk base0 email0 name0 phone0 cpf0).2.2.2.2
      rfl rfl rfl
  exact ⟨hfirst, hclick, habsent.2.1, habsent.2.2 rfl rfl rfl rfl 3 rfl⟩

/-! ### C4 -/

/-- C4 (amended): in the finalize step, if the native click raises, one
scripted click on the same element is attempted; when that scripted click
does not itself raise, it is the only scripted click and the step succeeds.
When the scripted click raises too, control falls to the outer handler,
which makes exactly one direct lookup and at most one more scripted click
(so up to two in total) before deciding.  If the initial wait-based lookup
fails, exactly one direct lookup is made, and the step succeeds exactly
when that lookup finds the control and its scripted click does not raise. -/
theorem finish_two_tier_fallback (env : Env) :
    (∀ x, env.finishBtn = some x → env.scrollRaises = false →
      env.nativeClickRaises = true →
      ((env.jsFallbackRaises = false →
          (finishPurchase env).1 = Except.ok () ∧
          jsClicks (finishPurchase env).2 = [x]) ∧
       (env.jsFallbackRaises = true →
          lookupCount (finishPurchase env).2 = 1 ∧
          (jsClicks (finishPurchase env).2).length ≤ 2))) ∧
    (env.finishBtn = none →
      lookupCount (finishPurchase env).2 = 1 ∧
      ((finishPurchase env).1 = Except.ok () ↔
        ∃ y, env.finishBtnDirect = some y ∧ env.jsDirectRaises = false)) := by
  constructor
  · intro x hx hs hn
    constructor
    · intro hj
      simp [finishPurchase, hx, hs, hn, hj, jsClicks]
    · intro hj
      cases hd : env.finishBtnDirect <;> cases hjd : env.jsDirectRaises <;>
        simp [finishPurchase, finishDirect, hx, hs, hn, hj, hd, hjd, jsClicks, lookupCount]
  · intro hb
    cases hd : env.finishBtnDirect <;> cases hjd : env.jsDirectRaises <;>
      simp [finishPurchase, finishDirect, hb, hd, hjd, lookupCount]

/-- C4 counterexample: when the native click raises and the inner scripted
click also raises, the scripted click is invoked twice — not exactly once —
before the step's success is decided. -/
theorem finish_double_scripted_click_cex :
    envDoubleClickFail.nativeClickRaises = true ∧
    jsClicks (finishPurchase envDoubleClickFail).2 = [2, 2] ∧
    (finishPurchase envDoubleClickFail).1 = Except.ok () :=
  ⟨rfl, rfl, rfl⟩

/-- C4 witness: with the native click raising and the scripted click
succeeding, exactly one scripted click happens; with the wait-based lookup
failing, exactly one direct lookup happens. -/
theorem finish_two_tier_witness :
    (finishPurchase envNativeFail).1 = Except.ok () ∧
    jsClicks (finishPurchase envNativeFail).2 = [2] ∧
    lookupCount (finishPurchase envWaitFail).2 = 1 := by
  have ha := ((finish_two_tier_fallback envNativeFail).1 2 rfl rfl rfl).1 rfl
  have hb := (finish_two_tier_fallback envWaitFail).2 rfl
  exact ⟨ha.1, ha.2, hb.1⟩

/-! ### C3 -/

/-- Evaluation lemma used to push `screenshotTags` through literal traces. -/
theorem screenshotTags_nil : screenshotTags [] = [] := rfl

/-- Lemma: `logMsg` events carry no screenshot tag. -/
theorem screenshotTags_cons_log (m : String) (t : List Event) :
    screenshotTags (Event.logMsg m :: t) = screenshotTags t := rfl

/-- Lemma: `navigate` events carry no screenshot tag. -/
theorem screenshotTags_cons_nav (u : String) (t : List Event) :
    screenshotTags (Event.navigate u :: t) = screenshotTags t := rfl

/-- Lemma: `sendKeys` events carry no screenshot tag. -/
theorem screenshotTags_cons_send (s : String) (t : List Event) :
    screenshotTags (Event.sendKeys s :: t) = screenshotTags t := rfl

/-- Lemma: `screenshot` events contribute their tag. -/
theorem screenshotTags_cons_shot (tag : String) (t : List Event) :
    screenshotTags (Event.screenshot tag :: t) = tag :: screenshotTags t := rfl

/-- C3 counterexample: two runs failing at different steps (form fill
vs. purchase finalization) both produce exactly one diagnostic screenshot
with the same fixed tag `error_screenshot` — the orchestrator's tag does
not name the failing state/step. -/
theorem error_screenshot_fixed_tag_cex :
    screenshotTags (generatePix envNoCpfField base0 email0 name0 phone0 cpf0).2 =
      ["error_screenshot"] ∧
    screenshotTags (generatePix envNoFinishBtn base0 email0 name0 phone0 cpf0).2 =
      ["error_screenshot"] ∧
    (generatePixBody envNoCpfField base0 email0 name0 phone0 cpf0).1 =
      Except.error "cpf field timeout" ∧
    (generatePixBody envNoFinishBtn base0 email0 name0 phone0 cpf0).1 =
      Except.error finishFailMsg ∧
    "cpf field timeout" ≠ finishFailMsg :=
  ⟨rfl, rfl, rfl, rfl, by decide⟩

/-- C3 (amended): a failing step triggers one diagnostic screenshot with
the fixed tag `error_screenshot` (not the failing state's name); only
token-extraction failure additionally produces exactly one screenshot
tagged `qr_code_not_found`, before the generic one.  In particular a run
where the token field never appears produces exactly one screenshot tagged
`qr_code_not_found`. -/
theorem qr_missing_screenshot_tags (env : Env) (b e n p c : String)
    (hnav : env.navigateRaises = false)
    (hcpf : env.cpfField.isSome = true)
    (hkeys : env.sendKeysRaises = false)
    (hfin : (finishPurchase env).1 = Except.ok ())
    (hqr : env.qrElem = none)
    (hs1 : env.screenshotRaises "qr_code_not_found" = false)
    (hs2 : env.screenshotRaises "error_screenshot" = false) :
    screenshotTags (generatePix env b e n p c).2 =
      ["qr_code_not_found", "error_screenshot"] := by
  obtain ⟨x, hx⟩ := Option.isSome_iff_exists.mp hcpf
  have hq : (captureQrCode env).1 = Except.error qrFailMsg := by
    rw [captureQrCode_fst, hqr]
  have hbody1 : (generatePixBody env b e n p c).1 = Except.error qrFailMsg := by
    simp [generatePixBody, navigateToCheckout, fillCpfField, hnav, hx, hkeys, hfin,
          handleExistingPix_fst, hq]
  have hbody2 : screenshotTags (generatePixBody env b e n p c).2 = ["qr_code_not_found"] := by
    simp [generatePixBody, navigateToCheckout, fillCpfField, hnav, hx, hkeys, hfin,
          handleExistingPix_fst, hq, hqr, hs1, screenshotTags_append, screenshotTags_nil,
          screenshotTags_cons_log, screenshotTags_cons_nav, screenshotTags_cons_send,
          screenshotTags_finish, screenshotTags_pix, screenshotTags_qr]
  simp [generatePix, hbody1, hbody2, takeScreenshot, hs2, screenshotTags_append,
        screenshotTags_cons_log, screenshotTags_cons_shot, screenshotTags_nil]

/-- C3 witness: a concrete run whose token field never appears produces the
`qr_code_not_found` screenshot followed by the generic `error_screenshot`. -/
theorem qr_missing_screenshot_tags_witness :
    screenshotTags (generatePix envNoQr base0 email0 name0 phone0 cpf0).2 =
      ["qr_code_not_found", "error_screenshot"] :=
  qr_missing_screenshot_tags envNoQr base0 email0 name0 phone0 cpf0
    rfl rfl rfl rfl rfl rfl rfl

/-! ### C8 -/

/-- C8 counterexample: in a fully successful session the webdriver-removal
patch is executed exactly once in total, as the first action, while one
navigation occurs — so it is not re-executed after that navigation
(re-execution per navigation would require at least two patch events). -/
theorem patch_not_reinjected_cex :
    patchScripts (sessionRun envAllOk base0 email0 name0 phone0 cpf0).2 =
      [ScriptTag.webdriverPatch] ∧
    navUrls (sessionRun envAllOk base0 email0 name0 phone0 cpf0).2 =
      [checkoutUrl base0 email0 name0 phone0] ∧
    (sessionRun envAllOk base0 email0 name0 phone0 cpf0).2.head? =
      some (Event.script ScriptTag.webdriverPatch) :=
  ⟨rfl, rfl, rfl⟩

/-- C8 (amended): the patch removing the automation-detectable navigator
property is executed exactly once per session, at construction, before any
navigation; it is never re-executed after the (single) navigation the run
issues. -/
theorem patch_once_before_any_navigation (env : Env) (b e n p c : String) :
    ∃ rest, (sessionRun env b e n p c).2 = Event.script ScriptTag.webdriverPatch :: rest ∧
      patchScripts rest = [] ∧
      navUrls rest = [checkoutUrl b e n p] :=
  ⟨(generatePix env b e n p c).2, rfl, patchScripts_generatePix env b e n p c,
   navUrls_generatePix env b e n p c⟩

/-! ### C6 -/

/-- C6 counterexample: the inline payload decodes to 5 bytes and the
reported byte length is 5, but the saved file holds the image library's
re-encoding — here 3 bytes, not the decoded 5 bytes. -/
theorem image_roundtrip_cex :
    b64decode "aGVsbG8=" = some [104, 101, 108, 108, 111] ∧
    reportedSizes (captureAndDisplayQrImage envReencode cpf0).2 = [5] ∧
    savedImageSizes (captureAndDisplayQrImage envReencode cpf0).2 = [3] :=
  ⟨by decide, rfl, rfl⟩

/-- C6 (amended): for an inline payload whose base64 section decodes to `S`
bytes, the reported byte length equals `S` exactly, and the saved file
contains the image library's re-encoding of the decoded payload — whose
byte length the code does not constrain to equal `S`. -/
theorem image_report_equals_decoded (env : Env) (c src b64data : String)
    (bytes out : List Nat) (wd ht : Nat)
    (h1 : env.imgElem.isSome = true)
    (h2 : env.imgSrc = some src)
    (h3 : strStartsWith src "data:image" = true)
    (h4 : (splitComma src)[1]? = some b64data)
    (h5 : b64decode b64data = some bytes)
    (h6 : env.pilOpen bytes = some (wd, ht, out))
    (h7 : env.imgSaveRaises = false) :
    (captureAndDisplayQrImage env c).1 = some b64data ∧
    reportedSizes (captureAndDisplayQrImage env c).2 = [bytes.length] ∧
    savedImageSizes (captureAndDisplayQrImage env c).2 = [out.length] := by
  obtain ⟨i, hi⟩ := Option.isSome_iff_exists.mp h1
  have hb : captureQrImageBody env c =
      (Except.ok (some b64data),
       [Event.logMsg "Capturando imagem do QR Code...",
        Event.savedImage (qrImagePath c env.timestamp) out,
        Event.reportedSize bytes.length,
        Event.logMsg ("Imagem do QR Code salva: " ++ qrImagePath c env.timestamp)]) := by
    simp [captureQrImageBody, hi, h2, h3, h4, h5, h6, h7]
  simp [captureAndDisplayQrImage, hb, reportedSizes, savedImageSizes]

/-- C6 witness: with the concrete payload `aGVsbG8=` (5 decoded bytes) and
a size-preserving image library, the report and the saved file both have 5
bytes and the base64 section is returned. -/
theorem image_report_witness :
    (captureAndDisplayQrImage envAllOk cpf0).1 = some "aGVsbG8=" ∧
    reportedSizes (captureAndDisplayQrImage envAllOk cpf0).2 = [5] ∧
    savedImageSizes (captureAndDisplayQrImage envAllOk cpf0).2 = [5] := by
  have h := image_report_equals_decoded envAllOk cpf0 "data:image/png;base64,aGVsbG8="
      "aGVsbG8=" [104, 101, 108, 108, 111] [104, 101, 108, 108, 111] 21 21
      rfl rfl rfl (by decide) (by decide) rfl rfl
  simpa using h

end PerfectPayPix
